import Mathlib

/-!
Verification development for the azugo OpenTelemetry instrumentation layer.

This file gives a shallow embedding of the parts of the code that the
checked properties talk about:

* the HTTP-status-to-span-status mapping `ServerStatus`
  (internal/semconvutil `httpConv.ServerStatus`);
* the goroutine-keyed trace-context registry
  (`setTraceCtx` / `clearTraceCtx` / `currentSpanCtx` in middleware.go),
  with the global `sync.Map` made explicit as a value of type `Registry`;
* the per-request span lifecycle middleware (`traceware.handle` in
  middleware.go), with its external collaborators (propagator, tracer,
  downstream handler, response) passed in as explicit parameters and its
  side effects (span start options, registry stores, handler invocation)
  recorded in an explicit result structure;
* the instrumentation recorder dispatch core (`instr` in
  instrumentation.go, both shipped variants of the returned dispatch
  closure);
* the context bridge (`azugoContext.Context` / `FromContext` in
  context.go and its marker-guarded variant), over an inductive model of
  Go context chains;
* the bit-level float encode/decode path of the log-correlation bridge
  (`otelLogging.sendOTel` in otel_logging.go, together with the bit
  pattern stored by the zap field constructors it decodes).

Machine integers are modelled as `Nat`/`Int` with explicit `% 2 ^ w`
where wrap-around matters; floating-point values are handled at the level
of their IEEE bit patterns, which is exactly what the reconstruction path
in the source manipulates.
-/

/-! ## Span contexts

`trace.SpanContext` from the OpenTelemetry SDK: a trace identifier, a
span identifier and a remote flag.  `IsValid` in the SDK is
`TraceID.IsValid() && SpanID.IsValid()`, i.e. both identifiers nonzero.
The zero value `SpanContext.zero` is what `trace.SpanContext{}` denotes
in Go and is the "absent" result of registry reads. -/

structure SpanContext where
  traceID : Nat
  spanID : Nat
  remote : Bool
deriving DecidableEq

def SpanContext.isValid (sc : SpanContext) : Bool :=
  sc.traceID ≠ 0 && sc.spanID ≠ 0

def SpanContext.zero : SpanContext :=
  { traceID := 0, spanID := 0, remote := false }

/-! ## Status mapping

`httpConv.ServerStatus` (internal/semconvutil/httpconv.go):

    if code < 100 || code >= 600 {
        return codes.Error, fmt.Sprintf("Invalid HTTP status code %d", code)
    }
    if code >= 500 {
        return codes.Error, ""
    }
    return codes.Unset, ""

`codes.Code` has the three values Unset, Error, Ok. -/

inductive Code where
  | unset
  | error
  | ok
deriving DecidableEq

def ServerStatus (code : Int) : Code × String :=
  if code < 100 ∨ 600 ≤ code then
    (Code.error, "Invalid HTTP status code " ++ toString code)
  else if 500 ≤ code then
    (Code.error, "")
  else
    (Code.unset, "")

/-! ## Trace-context registry

middleware.go keeps a global `sync.Map` from goroutine id to
`trace.SpanContext`.  The map is made explicit as a `Registry` value and
each operation of the source becomes a function on it:

    func setTraceCtx(spanCtx trace.SpanContext) {
        if !spanCtx.IsValid() { return }
        gid := goroutineID()
        goroutineTraceContexts.Store(gid, spanCtx)
    }

    func clearTraceCtx() {
        gid := goroutineID()
        goroutineTraceContexts.Delete(gid)
    }

    func currentSpanCtx() trace.SpanContext {
        gid := goroutineID()
        if val, ok := goroutineTraceContexts.Load(gid); ok {
            if spanCtx, ok := val.(trace.SpanContext); ok && spanCtx.IsValid() {
                return spanCtx
            }
            goroutineTraceContexts.Delete(gid)
        }
        return trace.SpanContext{}
    }

`goroutineID()` is threaded through as an explicit `gid` argument, and
the `Delete` inside the read becomes explicit state passing: the read
returns the (possibly shrunk) registry next to the result.  The model
stores `SpanContext` values only, so the `val.(trace.SpanContext)` type
assertion of the source always succeeds. -/

abbrev Registry := Nat → Option SpanContext

def Registry.store (reg : Registry) (gid : Nat) (sc : SpanContext) : Registry :=
  fun g => if g = gid then some sc else reg g

def Registry.delete (reg : Registry) (gid : Nat) : Registry :=
  fun g => if g = gid then none else reg g

def setTraceCtx (gid : Nat) (sc : SpanContext) (reg : Registry) : Registry :=
  if sc.isValid then reg.store gid sc else reg

def clearTraceCtx (gid : Nat) (reg : Registry) : Registry :=
  reg.delete gid

def currentSpanCtx (gid : Nat) (reg : Registry) : SpanContext × Registry :=
  match reg gid with
  | some sc => if sc.isValid then (sc, reg) else (SpanContext.zero, reg.delete gid)
  | none => (SpanContext.zero, reg)

/-! ## Span lifecycle middleware

`traceware.handle` (middleware.go):

    return func(ctx *azugo.Context) {
        if val, ok := ctx.UserValue("__log_request").(bool); !ok || !val {
            next(ctx)
            return
        }
        for _, f := range tw.filters {
            if !f(ctx) {
                next(ctx)
                return
            }
        }
        c := tw.propagators.Extract(ctx, azugoHeaderCarrier(ctx))
        if ac, ok := c.(*azugo.Context); ok { ctx = ac }
        opts := []trace.SpanStartOption{ ...attributes..., server kind }
        if tw.publicEndpoint || (tw.publicEndpointFn != nil && tw.publicEndpointFn(ctx)) {
            opts = append(opts, trace.WithNewRoot())
            if s := trace.SpanContextFromContext(c); s.IsValid() && s.IsRemote() {
                opts = append(opts, trace.WithLinks(trace.Link{SpanContext: s}))
            }
        }
        routeStr := ctx.RouterPath()
        if routeStr == "" { routeStr = "route not found" } else { route attribute }
        spanName := tw.routeSpanNameFormatter(ctx, routeStr)
        c, span := tw.tracer.Start(c, spanName, opts...)
        ctx.SetUserValue(otelParentSpanContext, c)
        if tw.config != nil && tw.config.TraceLogging {
            setTraceCtx(span.SpanContext())
            defer clearTraceCtx()
        }
        next(ctx)
        status := ctx.Response().StatusCode()
        if status > 0 { span.SetAttributes(semconv.HTTPResponseStatusCode(status)) }
        span.SetStatus(semconvutil.HTTPServerStatus(status))
        span.End()
    }

External collaborators become parameters:

* the request-scoped object is a `Request` carrying the `__log_request`
  user value (absent, a bool, or a value of some other type), the router
  path and the method;
* the propagator is `extract : Request → SpanContext × Option Request`:
  the span context its returned context carries, and `some req'` exactly
  when the returned context is itself an `*azugo.Context` (the source
  then adopts it for the rest of the request);
* the tracer's `Start` yields an SDK-owned span whose context is the
  parameter `startedSpanCtx`; the options passed to `Start` are recorded
  in a `SpanStart` value;
* the downstream handler is `nextFn : Registry → Registry` (the registry
  effects it performs on this goroutine before returning or panicking)
  together with `nextPanics : Bool` deciding whether it returns normally
  or panics; Go's `defer clearTraceCtx()` runs on both exit paths, and
  on the panic path the statements after `next(ctx)` do not run;
* the final response status code is `respStatus`.

The middleware's observable effects are collected in `MwResult`:
`regStores` lists the `Store` calls the middleware itself performed on
the registry, and `registry` is the registry once the middleware has
returned (normally or by propagating a panic). -/

inductive UserVal where
  | boolVal (b : Bool)
  | otherVal
deriving DecidableEq

structure Request where
  logRequest : Option UserVal
  routerPath : String
  method : String
deriving DecidableEq

structure Traceware where
  publicEndpoint : Bool
  publicEndpointFn : Option (Request → Bool)
  filters : List (Request → Bool)
  routeSpanNameFormatter : Request → String → String
  traceLogging : Bool

structure SpanStart where
  name : String
  newRoot : Bool
  links : List SpanContext
  routeAttr : Option String
deriving DecidableEq

structure MwResult where
  nextCalled : Bool
  extractPerformed : Bool
  parentStored : Bool
  span : Option SpanStart
  statusAttr : Option Int
  spanStatus : Option (Code × String)
  spanEnded : Bool
  regStores : List (Nat × SpanContext)
  registry : Registry
  panicked : Bool

/-- The `method ++ " " ++ routeName` default formatter
(`defaultRouteSpanNameFunc` in middleware.go). -/
def defaultRouteSpanNameFunc (ctx : Request) (routeName : String) : String :=
  ctx.method ++ " " ++ routeName

/-- Both untraced exits of `traceware.handle` (the `__log_request` gate
and a rejecting filter): `next(ctx)` is invoked directly and the
middleware touches nothing else. -/
def passthrough (nextFn : Registry → Registry) (nextPanics : Bool) (reg : Registry) :
    MwResult :=
  { nextCalled := true
    extractPerformed := false
    parentStored := false
    span := none
    statusAttr := none
    spanStatus := none
    spanEnded := false
    regStores := []
    registry := nextFn reg
    panicked := nextPanics }

/-- The request object in effect after the propagator ran: the context
returned by `Extract` when it is an `*azugo.Context`, the original one
otherwise. -/
def extractedCtx (extract : Request → SpanContext × Option Request) (req : Request) :
    Request :=
  ((extract req).2).getD req

/-- `tw.publicEndpoint || (tw.publicEndpointFn != nil && tw.publicEndpointFn(ctx))`. -/
def isPublic (tw : Traceware) (ctx : Request) : Bool :=
  tw.publicEndpoint ||
    (match tw.publicEndpointFn with
     | some f => f ctx
     | none => false)

/-- The span start options accumulated by `traceware.handle`: new-root
and link options under the public-endpoint condition, the route
attribute and the formatted span name. -/
def spanStartOf (tw : Traceware) (extract : Request → SpanContext × Option Request)
    (req : Request) : SpanStart :=
  { name := tw.routeSpanNameFormatter (extractedCtx extract req)
      (if (extractedCtx extract req).routerPath = "" then "route not found"
       else (extractedCtx extract req).routerPath)
    newRoot := isPublic tw (extractedCtx extract req)
    links :=
      if isPublic tw (extractedCtx extract req) && (extract req).1.isValid
          && (extract req).1.remote then
        [(extract req).1]
      else []
    routeAttr :=
      if (extractedCtx extract req).routerPath = "" then none
      else some (extractedCtx extract req).routerPath }

/-- The registry once the middleware has returned: `setTraceCtx` before
the handler and the deferred `clearTraceCtx` afterwards when trace
logging is on, only the handler's own effects otherwise.  The deferred
clear runs on the normal and on the panicking exit alike. -/
def finalRegistry (tw : Traceware) (gid : Nat) (startedSpanCtx : SpanContext)
    (nextFn : Registry → Registry) (reg : Registry) : Registry :=
  if tw.traceLogging then
    clearTraceCtx gid (nextFn (setTraceCtx gid startedSpanCtx reg))
  else
    nextFn reg

def handle (tw : Traceware) (extract : Request → SpanContext × Option Request)
    (startedSpanCtx : SpanContext) (gid : Nat) (nextFn : Registry → Registry)
    (nextPanics : Bool) (respStatus : Int) (req : Request) (reg : Registry) :
    MwResult :=
  if req.logRequest ≠ some (UserVal.boolVal true) then
    passthrough nextFn nextPanics reg
  else if tw.filters.any (fun f => !(f req)) then
    passthrough nextFn nextPanics reg
  else if nextPanics then
    { nextCalled := true
      extractPerformed := true
      parentStored := true
      span := some (spanStartOf tw extract req)
      statusAttr := none
      spanStatus := none
      spanEnded := false
      regStores :=
        if tw.traceLogging && startedSpanCtx.isValid then [(gid, startedSpanCtx)]
        else []
      registry := finalRegistry tw gid startedSpanCtx nextFn reg
      panicked := true }
  else
    { nextCalled := true
      extractPerformed := true
      parentStored := true
      span := some (spanStartOf tw extract req)
      statusAttr := if 0 < respStatus then some respStatus else none
      spanStatus := some (ServerStatus respStatus)
      spanEnded := true
      regStores :=
        if tw.traceLogging && startedSpanCtx.isValid then [(gid, startedSpanCtx)]
        else []
      registry := finalRegistry tw gid startedSpanCtx nextFn reg
      panicked := false }

/-! ## Instrumentation recorder dispatch core

`instr` (instrumentation.go) builds, from the configured
`instrRecorder` registrations, a map from operation identifier to an
ordered list of recorders:

    for _, r := range cfg.instrRecorders {
        ...
        for _, op := range r.Ops {
            recorders[op] = append(recorders[op], namedRecorder{...})
        }
        if len(r.Ops) == 0 {
            recorders[""] = append(recorders[""], namedRecorder{...})
        }
    }

and returns a dispatch closure.  The repository ships two variants of
that closure.  The first tries `recorders[op]` and then `recorders[""]`
under a first-match rule and otherwise returns a no-op callback:

    return func(ctx context.Context, op string, args ...interface{}) func(err error) {
        for _, r := range recorders[op] {
            f, handled := r.Recorder(...)
            if handled { return f }
        }
        for _, r := range recorders[""] {
            f, handled := r.Recorder(...)
            if handled { return f }
        }
        return func(_ error) {}
    }

The second variant prepends a special case:

    if op == azugo.InstrumentationPanic {
        return func(err error) { ...record error on current span, end it... }
    }

and otherwise runs the same two loops verbatim.

A recorder is modelled as a function from the operation identifier and
the argument list to the `(completion callback, handled)` pair it
returns; the tracer, propagator and formatter arguments the source
threads through do not influence which callback dispatch hands back, so
they are dropped from the model.  Completion callbacks are modelled as
an inductive type: the shared no-op, an arbitrary recorder-produced
callback tagged by name and number, and the built-in panic-handling
closure of the second variant.  Arguments are modelled as `List Nat`;
recorders only ever inspect them to accept or decline. -/

inductive Completion where
  | noop
  | cb (name : String) (tag : Nat)
  | panicBuiltin
deriving DecidableEq

abbrev RecFn := String → List Nat → Completion × Bool

structure InstrRecorder where
  name : String
  ops : List String
  recorder : RecFn

/-- The per-key recorder list built by `instr`: one entry per occurrence
of the key in a registration's `Ops`, plus (for the empty key) one entry
per registration with an empty `Ops` list, in registration order. -/
def buildRecorders (regs : List InstrRecorder) (key : String) : List InstrRecorder :=
  regs.flatMap (fun r =>
    ((r.ops.filter (fun o => o = key)).map (fun _ => r)) ++
      (if r.ops = [] ∧ key = "" then [r] else []))

/-- One dispatch loop: try the recorders in order, return the completion
callback of the first one that reports handled. -/
def firstHandled : List InstrRecorder → String → List Nat → Option Completion
  | [], _, _ => none
  | r :: rest, op, args =>
    if (r.recorder op args).2 then some (r.recorder op args).1
    else firstHandled rest op args

/-- The dispatch closure of the first `instr` variant
(instrumentation.go lines 53-69). -/
def instrDispatch (regs : List InstrRecorder) (op : String) (args : List Nat) :
    Completion :=
  match firstHandled (buildRecorders regs op) op args with
  | some f => f
  | none =>
    match firstHandled (buildRecorders regs "") op args with
    | some f => f
    | none => Completion.noop

/-- The reserved panic-event operation identifier.  The source compares
against the external constant `azugo.InstrumentationPanic`; only its
identity as a distinguished string matters here. -/
def instrumentationPanic : String := "panic"

/-- The dispatch closure of the second `instr` variant
(instrumentation.go lines 128-173): a special-case branch answers the
reserved panic identifier with the built-in panic-handling closure
before the two generic loops (which are verbatim those of
`instrDispatch`) are reached. -/
def instrDispatchPanicVariant (regs : List InstrRecorder) (op : String)
    (args : List Nat) : Completion :=
  if op = instrumentationPanic then Completion.panicBuiltin
  else
    match firstHandled (buildRecorders regs op) op args with
    | some f => f
    | none =>
      match firstHandled (buildRecorders regs "") op args with
      | some f => f
      | none => Completion.noop

/-- The dispatch rule as the specification words it: the
operation-specific recorders registered for `op`, in registration
order. -/
def claimSpecific (regs : List InstrRecorder) (op : String) : List InstrRecorder :=
  regs.filter (fun r => op ∈ r.ops)

/-- The catch-all recorders as the specification words it: those
registered with an empty operation-ID list, in registration order. -/
def claimCatchAll (regs : List InstrRecorder) : List InstrRecorder :=
  regs.filter (fun r => r.ops = [])

/-- The dispatch rule as the specification words it: first match among
the operation-specific recorders, then first match among the
catch-alls, else the no-op callback. -/
def claimDispatch (regs : List InstrRecorder) (op : String) (args : List Nat) :
    Completion :=
  match firstHandled (claimSpecific regs op) op args with
  | some f => f
  | none =>
    match firstHandled (claimCatchAll regs) op args with
    | some f => f
    | none => Completion.noop

/-! ## Context bridge

context.go bridges the generic `context.Context` world and the
request-scoped `*azugo.Context`.  Go context chains are modelled as an
inductive type: the constructors are the context builders that the
bridge code can produce or inspect.

    type azugoContext struct{}

    func (azugoContext) Context(ctx context.Context) context.Context {
        pctx := FromContext(ctx)
        if pctx == nil { return nil }
        if pctx == ctx { return nil }
        spanCtx := trace.SpanContextFromContext(pctx)
        if !spanCtx.IsValid() { return nil }
        c := trace.ContextWithSpanContext(ctx, spanCtx)
        if span := trace.SpanFromContext(pctx); span != nil {
            return trace.ContextWithSpan(c, span)
        }
        return c
    }

and the marker-guarded variant of the same method:

    if pctx == ctx || pctx.Value(currentExtendedContextKey) != nil { return nil }
    pctx = context.WithValue(pctx, currentExtendedContextKey, struct{}{})
    ...same tail...

    func FromContext(ctx context.Context) context.Context {
        c := azugo.RequestContext(ctx)
        if c == nil { return ctx }
        val := c.UserValue(otelParentSpanContext)
        if val == nil { return ctx }
        sc, ok := val.(context.Context)
        if !ok { return ctx }
        return sc
    }

Modelling notes.  `azugo.RequestContext` belongs to the external web
framework; the repository's own variant of `FromContext` (azugo.go)
recovers the request object with the plain type assertion
`ctx.(*azugo.Context)`, so the model lets `requestContext` succeed
exactly when the context value is the request object itself.  The
reserved user value is carried by the `requestSome` constructor and is
always a context, so the `val.(context.Context)` assertion of the
source always succeeds.  `trace.SpanFromContext` is the SDK's lookup of
the span value along the chain; the model returns `none` where the SDK
would fall back to a noop span, which matches the source's `span != nil`
test.  Go compares contexts by interface identity (`pctx == ctx`);
structural equality of the model stands in for it, and the two agree on
every comparison the bridge performs, because the bridge only ever
compares a context against one it obtained from the very same value. -/

structure Span where
  spanContext : SpanContext
deriving DecidableEq

inductive GoCtx where
  | base
  | requestNone
  | requestSome (stored : GoCtx)
  | withSpanContext (parent : GoCtx) (sc : SpanContext)
  | withSpan (parent : GoCtx) (sp : Span)
  | withMarker (parent : GoCtx)
deriving DecidableEq

/-- `azugo.RequestContext`: the request object when the context is one,
absent otherwise (type-assertion semantics, see the modelling notes). -/
def requestContext : GoCtx → Option GoCtx
  | GoCtx.requestNone => some GoCtx.requestNone
  | GoCtx.requestSome stored => some (GoCtx.requestSome stored)
  | _ => none

/-- `c.UserValue(otelParentSpanContext)` on the request object. -/
def userStored : GoCtx → Option GoCtx
  | GoCtx.requestSome stored => some stored
  | _ => none

/-- `FromContext` (context.go lines 40-57). -/
def FromContext (ctx : GoCtx) : GoCtx :=
  match requestContext ctx with
  | none => ctx
  | some c =>
    match userStored c with
    | none => ctx
    | some sc => sc

/-- `trace.SpanFromContext`: the innermost span value on the chain. -/
def spanFromContext : GoCtx → Option Span
  | GoCtx.withSpan _ sp => some sp
  | GoCtx.withSpanContext _ sc => some { spanContext := sc }
  | GoCtx.withMarker p => spanFromContext p
  | _ => none

/-- `trace.SpanContextFromContext`: the span context of the innermost
span value, or the zero span context. -/
def spanContextFromContext (ctx : GoCtx) : SpanContext :=
  match spanFromContext ctx with
  | some sp => sp.spanContext
  | none => SpanContext.zero

/-- `pctx.Value(currentExtendedContextKey) != nil`: whether the chain
carries the one-shot derivation marker. -/
def hasMarker : GoCtx → Bool
  | GoCtx.withMarker _ => true
  | GoCtx.withSpan p _ => hasMarker p
  | GoCtx.withSpanContext p _ => hasMarker p
  | _ => false

/-- `azugoContext.Context` (context.go lines 15-37): the variant whose
only guard is identity of the extracted parent with the argument. -/
def azugoContext.Context (ctx : GoCtx) : Option GoCtx :=
  if FromContext ctx = ctx then none
  else
    if (spanContextFromContext (FromContext ctx)).isValid then
      match spanFromContext (FromContext ctx) with
      | some sp =>
        some (GoCtx.withSpan
          (GoCtx.withSpanContext ctx (spanContextFromContext (FromContext ctx))) sp)
      | none => some (GoCtx.withSpanContext ctx (spanContextFromContext (FromContext ctx)))
    else none

/-- The marker-guarded `azugoContext.Context` variant: additionally
refuses a parent already carrying the derivation marker, and evaluates
the span lookups on the marker-wrapped parent. -/
def azugoContext.ContextMarked (ctx : GoCtx) : Option GoCtx :=
  if FromContext ctx = ctx ∨ hasMarker (FromContext ctx) then none
  else
    if (spanContextFromContext (GoCtx.withMarker (FromContext ctx))).isValid then
      match spanFromContext (GoCtx.withMarker (FromContext ctx)) with
      | some sp =>
        some (GoCtx.withSpan
          (GoCtx.withSpanContext ctx
            (spanContextFromContext (GoCtx.withMarker (FromContext ctx)))) sp)
      | none =>
        some (GoCtx.withSpanContext ctx
          (spanContextFromContext (GoCtx.withMarker (FromContext ctx))))
    else none

/-! ## Float round-trip through the log-correlation bridge

`otelLogging.sendOTel` (otel_logging.go) reconstructs float fields from
the raw bit pattern that the zap field constructors stored:

    case zapcore.Float64Type:
        value := math.Float64frombits(uint64(field.Integer))
    case zapcore.Float32Type:
        if field.Integer < 0 || field.Integer > math.MaxUint32 { continue }
        value := math.Float32frombits(uint32(field.Integer))

zap's constructors store `Integer: int64(math.Float64bits(v))` and
`Integer: int64(math.Float32bits(v))` respectively.  The development
works at the level of bit patterns: a 64-bit float value is its pattern
`b < 2 ^ 64`, `math.Float64bits` / `math.Float64frombits` are the two
identity directions of that representation, and the integer conversions
of the source become the corresponding `Int`/`Nat` arithmetic with
explicit wrap-around. -/

/-- `int64(b)` for a 64-bit pattern `b`: Go's wrap-around conversion
from `uint64` to `int64`, performed by `zap.Float64`. -/
def int64OfBits64 (b : Nat) : Int :=
  if b < 2 ^ 63 then (b : Int) else (b : Int) - 2 ^ 64

/-- `uint64(i)` for an `int64` value `i`: Go's wrap-around conversion
back, performed on `field.Integer` by `sendOTel`. -/
def uint64OfInt (i : Int) : Nat :=
  (i % ((2 : Int) ^ 64)).toNat

/-- The `zapcore.Float64Type` branch of `sendOTel` at bit level:
`math.Float64frombits(uint64(field.Integer))`. -/
def sendOTelFloat64Bits (i : Int) : Nat :=
  uint64OfInt i

/-- `int64(math.Float32bits(v))` stored by `zap.Float32` for a 32-bit
pattern `b`. -/
def int32FieldOfBits32 (b : Nat) : Int :=
  (b : Int)

/-- The `zapcore.Float32Type` branch of `sendOTel` at bit level: the
range guard, then `math.Float32frombits(uint32(field.Integer))`;
`none` models the `continue` that skips the field. -/
def sendOTelFloat32Bits (i : Int) : Option Nat :=
  if i < 0 ∨ 4294967295 < i then none
  else some i.toNat

/-! Sample configurations used to instantiate the middleware theorems. -/

def twTraceLogging : Traceware :=
  { publicEndpoint := false
    publicEndpointFn := none
    filters := []
    routeSpanNameFormatter := defaultRouteSpanNameFunc
    traceLogging := true }

def twPublic : Traceware :=
  { publicEndpoint := true
    publicEndpointFn := none
    filters := []
    routeSpanNameFormatter := defaultRouteSpanNameFunc
    traceLogging := false }

def twFiltered : Traceware :=
  { publicEndpoint := false
    publicEndpointFn := none
    filters := [fun _ => false]
    routeSpanNameFormatter := defaultRouteSpanNameFunc
    traceLogging := true }

def reqLogged : Request :=
  { logRequest := some (UserVal.boolVal true)
    routerPath := "/user/{id}"
    method := "GET" }

def reqUnlogged : Request :=
  { logRequest := none
    routerPath := "/user/{id}"
    method := "GET" }

def extractSample : Request → SpanContext × Option Request :=
  fun _ => ({ traceID := 5, spanID := 6, remote := true }, none)

/-! ## Theorems -/

theorem invalid_status_msg_ne_empty (s : String) :
    ("Invalid HTTP status code " ++ s) ≠ "" := by
  intro h
  have hd : ("Invalid HTTP status code " ++ s).data = "".data := by rw [h]
  rw [String.data_append] at hd
  simp at hd

/-- Claim C1: the HTTP-status-to-span-status mapping sends every code
outside `[100, 600)` to an error status with a non-empty message, every
code in `[500, 600)` to an error status with an empty message, and every
code in `[100, 500)` — the whole 4xx range included — to an unset
status. -/
theorem ServerStatus_spec (c1 c2 c3 : Int) (h1 : c1 < 100 ∨ 600 ≤ c1)
    (h2 : 500 ≤ c2 ∧ c2 < 600) (h3 : 100 ≤ c3 ∧ c3 < 500) :
    ((ServerStatus c1).1 = Code.error ∧ (ServerStatus c1).2 ≠ "") ∧
    ServerStatus c2 = (Code.error, "") ∧
    ServerStatus c3 = (Code.unset, "") := by
  refine ⟨⟨?_, ?_⟩, ?_, ?_⟩
  · rw [ServerStatus, if_pos h1]
  · rw [ServerStatus, if_pos h1]
    exact invalid_status_msg_ne_empty _
  · rw [ServerStatus, if_neg (by omega), if_pos (by omega)]
  · rw [ServerStatus, if_neg (by omega), if_neg (by omega)]

theorem ServerStatus_spec_witness :
    ((ServerStatus 700).1 = Code.error ∧ (ServerStatus 700).2 ≠ "") ∧
    ServerStatus 503 = (Code.error, "") ∧
    ServerStatus 404 = (Code.unset, "") :=
  ServerStatus_spec 700 503 404 (by omega) (by omega) (by omega)

/-- Claim C7: `setTraceCtx` with an invalid span context leaves the
registry unchanged; `currentSpanCtx` on a unit ID whose stored entry is
invalid returns the absent value (the zero span context), removes the
entry, and a subsequent read on the same ID is also absent; a read
never answers with an invalid span context as if it were present. -/
theorem traceCtxRegistry_validity (reg : Registry) (gid : Nat) (sc v : SpanContext)
    (hsc : sc.isValid = false) (hv : reg gid = some v) (hvv : v.isValid = false) :
    setTraceCtx gid sc reg = reg ∧
    (currentSpanCtx gid reg).1 = SpanContext.zero ∧
    (currentSpanCtx gid reg).2 gid = none ∧
    (currentSpanCtx gid (currentSpanCtx gid reg).2).1 = SpanContext.zero ∧
    ∀ (r : Registry) (g : Nat),
      ((currentSpanCtx g r).1).isValid = true ∨ (currentSpanCtx g r).1 = SpanContext.zero := by
  refine ⟨?_, ?_, ?_, ?_, ?_⟩
  · rw [setTraceCtx, hsc]
    rfl
  · simp [currentSpanCtx, hv, hvv]
  · simp [currentSpanCtx, hv, hvv, Registry.delete]
  · simp [currentSpanCtx, hv, hvv, Registry.delete]
  · intro r g
    unfold currentSpanCtx
    cases hrg : r g with
    | none => simp
    | some sc' =>
      by_cases hval : sc'.isValid = true
      · left
        simp [hval]
      · right
        simp [hval]

theorem traceCtxRegistry_validity_witness :
    setTraceCtx 7 SpanContext.zero
        (fun g => if g = 7 then some { traceID := 3, spanID := 0, remote := false } else none) =
      (fun g => if g = 7 then some { traceID := 3, spanID := 0, remote := false } else none) ∧
    (currentSpanCtx 7
        (fun g => if g = 7 then some { traceID := 3, spanID := 0, remote := false } else none)).1 =
      SpanContext.zero ∧
    (currentSpanCtx 7
        (fun g => if g = 7 then some { traceID := 3, spanID := 0, remote := false } else none)).2 7 =
      none ∧
    (currentSpanCtx 7
        (currentSpanCtx 7
          (fun g => if g = 7 then some { traceID := 3, spanID := 0, remote := false } else none)).2).1 =
      SpanContext.zero ∧
    ∀ (r : Registry) (g : Nat),
      ((currentSpanCtx g r).1).isValid = true ∨ (currentSpanCtx g r).1 = SpanContext.zero :=
  traceCtxRegistry_validity
    (fun g => if g = 7 then some { traceID := 3, spanID := 0, remote := false } else none)
    7 SpanContext.zero { traceID := 3, spanID := 0, remote := false }
    (by decide) (by simp) (by decide)

/-- Claim C9: re-encoding a floating-point log field through the
raw-bit-pattern reconstruction path of the log-correlation bridge is
the identity on bit patterns, for both supported widths — negative zero
and the canonical NaN pattern included, since the statement covers
every pattern below `2 ^ 64` (respectively `2 ^ 32`). -/
theorem sendOTel_float_roundtrip (b : Nat) (h : b < 2 ^ 64)
    (b32 : Nat) (h32 : b32 < 2 ^ 32) :
    sendOTelFloat64Bits (int64OfBits64 b) = b ∧
    sendOTelFloat32Bits (int32FieldOfBits32 b32) = some b32 := by
  constructor
  · unfold sendOTelFloat64Bits uint64OfInt int64OfBits64
    split <;> omega
  · unfold sendOTelFloat32Bits int32FieldOfBits32
    rw [if_neg (by omega)]
    simp

theorem sendOTel_float_roundtrip_witness :
    sendOTelFloat64Bits (int64OfBits64 9223372036854775808) = 9223372036854775808 ∧
    sendOTelFloat32Bits (int32FieldOfBits32 2143289344) = some 2143289344 :=
  sendOTel_float_roundtrip 9223372036854775808 (by decide) 2143289344 (by decide)

/-- Claim C2: on a request with log correlation enabled that reaches the
traced path, the registry entry for the request's execution unit is gone
once the middleware returns — whether the handler returned normally or
panicked, and whatever the handler itself did to the registry — because
the deferred `clearTraceCtx` runs on every exit path of the handler
invocation before the middleware itself returns; a `currentSpanCtx` read
on that unit ID then answers absent. -/
theorem handle_clears_registry (tw : Traceware)
    (extract : Request → SpanContext × Option Request) (startedSpanCtx : SpanContext)
    (gid : Nat) (nextFn : Registry → Registry) (nextPanics : Bool) (respStatus : Int)
    (req : Request) (reg : Registry)
    (hlog : tw.traceLogging = true)
    (hreq : req.logRequest = some (UserVal.boolVal true))
    (hfilt : tw.filters.any (fun f => !(f req)) = false) :
    (handle tw extract startedSpanCtx gid nextFn nextPanics respStatus req reg).registry
        gid = none ∧
    (currentSpanCtx gid
        (handle tw extract startedSpanCtx gid nextFn nextPanics respStatus req
          reg).registry).1 = SpanContext.zero := by
  cases nextPanics <;>
    simp [handle, hreq, hfilt, finalRegistry, hlog, clearTraceCtx, Registry.delete,
      currentSpanCtx]

theorem handle_clears_registry_witness :
    (handle twTraceLogging extractSample
        { traceID := 1, spanID := 2, remote := false } 9 id true 200 reqLogged
        (fun _ => none)).registry 9 = none ∧
    (currentSpanCtx 9
        (handle twTraceLogging extractSample
          { traceID := 1, spanID := 2, remote := false } 9 id true 200 reqLogged
          (fun _ => none)).registry).1 = SpanContext.zero :=
  handle_clears_registry twTraceLogging extractSample
    { traceID := 1, spanID := 2, remote := false } 9 id true 200 reqLogged
    (fun _ => none) rfl rfl rfl

/-- Claim C5: on the traced path of a public endpoint — the static flag
set, or unset with the per-request predicate answering true on the
request in effect after extraction — the span is started as a new root,
carrying exactly one link to the extracted remote context when that
context is valid and remote, and no link otherwise. -/
theorem handle_public_newRoot_link (tw : Traceware)
    (extract : Request → SpanContext × Option Request) (startedSpanCtx : SpanContext)
    (gid : Nat) (nextFn : Registry → Registry) (nextPanics : Bool) (respStatus : Int)
    (req : Request) (reg : Registry)
    (hreq : req.logRequest = some (UserVal.boolVal true))
    (hfilt : tw.filters.any (fun f => !(f req)) = false)
    (hpub : isPublic tw (extractedCtx extract req) = true) :
    ∃ s, (handle tw extract startedSpanCtx gid nextFn nextPanics respStatus req
        reg).span = some s ∧
      s.newRoot = true ∧
      s.links = (if (extract req).1.isValid && (extract req).1.remote
        then [(extract req).1] else []) := by
  refine ⟨spanStartOf tw extract req, ?_, ?_, ?_⟩
  · cases nextPanics <;> simp [handle, hreq, hfilt]
  · simp [spanStartOf, hpub]
  · simp [spanStartOf, hpub]

theorem handle_public_newRoot_link_witness :
    ∃ s, (handle twPublic extractSample
        { traceID := 1, spanID := 2, remote := false } 9 id false 200 reqLogged
        (fun _ => none)).span = some s ∧
      s.newRoot = true ∧
      s.links = (if (extractSample reqLogged).1.isValid && (extractSample reqLogged).1.remote
        then [(extractSample reqLogged).1] else []) :=
  handle_public_newRoot_link twPublic extractSample
    { traceID := 1, spanID := 2, remote := false } 9 id false 200 reqLogged
    (fun _ => none) rfl rfl rfl

/-- Claim C8: a request rejected by a configured filter is passed
straight to the downstream handler: the middleware performs no
extraction, creates no span, stores nothing into the registry, and the
registry after the middleware returns carries only the handler's own
effects. -/
theorem handle_filtered_passthrough (tw : Traceware)
    (extract : Request → SpanContext × Option Request) (startedSpanCtx : SpanContext)
    (gid : Nat) (nextFn : Registry → Registry) (nextPanics : Bool) (respStatus : Int)
    (req : Request) (reg : Registry)
    (hreq : req.logRequest = some (UserVal.boolVal true))
    (hfilt : tw.filters.any (fun f => !(f req)) = true) :
    handle tw extract startedSpanCtx gid nextFn nextPanics respStatus req reg =
      passthrough nextFn nextPanics reg ∧
    (handle tw extract startedSpanCtx gid nextFn nextPanics respStatus req
      reg).nextCalled = true ∧
    (handle tw extract startedSpanCtx gid nextFn nextPanics respStatus req
      reg).span = none ∧
    (handle tw extract startedSpanCtx gid nextFn nextPanics respStatus req
      reg).regStores = [] ∧
    (handle tw extract startedSpanCtx gid nextFn nextPanics respStatus req
      reg).extractPerformed = false ∧
    (handle tw extract startedSpanCtx gid nextFn nextPanics respStatus req
      reg).registry = nextFn reg := by
  have h : handle tw extract startedSpanCtx gid nextFn nextPanics respStatus req reg =
      passthrough nextFn nextPanics reg := by
    simp [handle, hreq, hfilt]
  exact ⟨h, by rw [h]; rfl, by rw [h]; rfl, by rw [h]; rfl, by rw [h]; rfl, by rw [h]; rfl⟩

theorem handle_filtered_passthrough_witness :
    handle twFiltered extractSample
        { traceID := 1, spanID := 2, remote := false } 9 id false 200 reqLogged
        (fun _ => none) =
      passthrough id false (fun _ => none) ∧
    (handle twFiltered extractSample
      { traceID := 1, spanID := 2, remote := false } 9 id false 200 reqLogged
      (fun _ => none)).nextCalled = true ∧
    (handle twFiltered extractSample
      { traceID := 1, spanID := 2, remote := false } 9 id false 200 reqLogged
      (fun _ => none)).span = none ∧
    (handle twFiltered extractSample
      { traceID := 1, spanID := 2, remote := false } 9 id false 200 reqLogged
      (fun _ => none)).regStores = [] ∧
    (handle twFiltered extractSample
      { traceID := 1, spanID := 2, remote := false } 9 id false 200 reqLogged
      (fun _ => none)).extractPerformed = false ∧
    (handle twFiltered extractSample
      { traceID := 1, spanID := 2, remote := false } 9 id false 200 reqLogged
      (fun _ => none)).registry = id (fun _ => none) :=
  handle_filtered_passthrough twFiltered extractSample
    { traceID := 1, spanID := 2, remote := false } 9 id false 200 reqLogged
    (fun _ => none) rfl rfl

/-- Claim C10 (implicit): a request whose request-scoped object does not
carry the user value `__log_request` set to boolean true — absent, of a
non-bool type, or false — is passed straight to the downstream handler:
no extraction, no span, no registry write, regardless of the configured
filters, public-endpoint settings or log-correlation configuration. -/
theorem handle_unlogged_passthrough (tw : Traceware)
    (extract : Request → SpanContext × Option Request) (startedSpanCtx : SpanContext)
    (gid : Nat) (nextFn : Registry → Registry) (nextPanics : Bool) (respStatus : Int)
    (req : Request) (reg : Registry)
    (hreq : req.logRequest ≠ some (UserVal.boolVal true)) :
    handle tw extract startedSpanCtx gid nextFn nextPanics respStatus req reg =
      passthrough nextFn nextPanics reg ∧
    (handle tw extract startedSpanCtx gid nextFn nextPanics respStatus req
      reg).nextCalled = true ∧
    (handle tw extract startedSpanCtx gid nextFn nextPanics respStatus req
      reg).span = none ∧
    (handle tw extract startedSpanCtx gid nextFn nextPanics respStatus req
      reg).regStores = [] ∧
    (handle tw extract startedSpanCtx gid nextFn nextPanics respStatus req
      reg).extractPerformed = false ∧
    (handle tw extract startedSpanCtx gid nextFn nextPanics respStatus req
      reg).registry = nextFn reg := by
  have h : handle tw extract startedSpanCtx gid nextFn nextPanics respStatus req reg =
      passthrough nextFn nextPanics reg := by
    rw [handle, if_pos hreq]
  exact ⟨h, by rw [h]; rfl, by rw [h]; rfl, by rw [h]; rfl, by rw [h]; rfl, by rw [h]; rfl⟩

theorem handle_unlogged_passthrough_witness :
    handle twPublic extractSample
        { traceID := 1, spanID := 2, remote := false } 9 id false 200 reqUnlogged
        (fun _ => none) =
      passthrough id false (fun _ => none) ∧
    (handle twPublic extractSample
      { traceID := 1, spanID := 2, remote := false } 9 id false 200 reqUnlogged
      (fun _ => none)).nextCalled = true ∧
    (handle twPublic extractSample
      { traceID := 1, spanID := 2, remote := false } 9 id false 200 reqUnlogged
      (fun _ => none)).span = none ∧
    (handle twPublic extractSample
      { traceID := 1, spanID := 2, remote := false } 9 id false 200 reqUnlogged
      (fun _ => none)).regStores = [] ∧
    (handle twPublic extractSample
      { traceID := 1, spanID := 2, remote := false } 9 id false 200 reqUnlogged
      (fun _ => none)).extractPerformed = false ∧
    (handle twPublic extractSample
      { traceID := 1, spanID := 2, remote := false } 9 id false 200 reqUnlogged
      (fun _ => none)).registry = id (fun _ => none) :=
  handle_unlogged_passthrough twPublic extractSample
    { traceID := 1, spanID := 2, remote := false } 9 id false 200 reqUnlogged
    (fun _ => none) (by decide)

/-! Helper facts for the context bridge. -/

theorem FromContext_eq_self_of_requestContext_none (x : GoCtx)
    (h : requestContext x = none) : FromContext x = x := by
  rw [FromContext, h]

theorem ContextMarked_eq_none_of_self (x : GoCtx) (h : FromContext x = x) :
    azugoContext.ContextMarked x = none := by
  rw [azugoContext.ContextMarked, if_pos (Or.inl h)]

theorem Context_eq_none_of_self (x : GoCtx) (h : FromContext x = x) :
    azugoContext.Context x = none := by
  rw [azugoContext.Context, if_pos h]

theorem ContextMarked_eq_none_of_marker (x : GoCtx)
    (h : hasMarker (FromContext x) = true) : azugoContext.ContextMarked x = none := by
  rw [azugoContext.ContextMarked, if_pos (Or.inr h)]

theorem requestContext_ContextMarked (ctx c : GoCtx)
    (h : azugoContext.ContextMarked ctx = some c) : requestContext c = none := by
  rw [azugoContext.ContextMarked] at h
  split at h
  · exact absurd h (by simp)
  · split at h
    · split at h
      · rw [Option.some_inj] at h
        rw [← h]
        rfl
      · rw [Option.some_inj] at h
        rw [← h]
        rfl
    · exact absurd h (by simp)

theorem requestContext_Context (ctx c : GoCtx)
    (h : azugoContext.Context ctx = some c) : requestContext c = none := by
  rw [azugoContext.Context] at h
  split at h
  · exact absurd h (by simp)
  · split at h
    · split at h
      · rw [Option.some_inj] at h
        rw [← h]
        rfl
      · rw [Option.some_inj] at h
        rw [← h]
        rfl
    · exact absurd h (by simp)

/-- Claim C6: the context bridge never recurses — deriving a child
context from a context that a previous derivation produced yields
absent (both for the identity-guarded variant and for the
marker-guarded one, which in addition refuses any parent already
carrying the derivation marker); in particular a call whose extracted
parent is identical to the context passed in, or is marked as derived,
returns absent instead of building a self-referential child.  The
derivation functions are structurally recursive, so no call loops. -/
theorem contextBridge_antiRecursion (ctx c ctx2 c2 : GoCtx)
    (h : azugoContext.ContextMarked ctx = some c)
    (h2 : azugoContext.Context ctx2 = some c2) :
    azugoContext.ContextMarked c = none ∧
    azugoContext.Context c2 = none ∧
    (∀ x, FromContext x = x → azugoContext.ContextMarked x = none) ∧
    (∀ x, hasMarker (FromContext x) = true → azugoContext.ContextMarked x = none) := by
  refine ⟨?_, ?_, ?_, ?_⟩
  · exact ContextMarked_eq_none_of_self c
      (FromContext_eq_self_of_requestContext_none c (requestContext_ContextMarked ctx c h))
  · exact Context_eq_none_of_self c2
      (FromContext_eq_self_of_requestContext_none c2 (requestContext_Context ctx2 c2 h2))
  · exact ContextMarked_eq_none_of_self
  · exact ContextMarked_eq_none_of_marker

theorem contextBridge_antiRecursion_witness :
    azugoContext.ContextMarked
        (GoCtx.withSpan
          (GoCtx.withSpanContext
            (GoCtx.requestSome
              (GoCtx.withSpanContext GoCtx.base
                { traceID := 1, spanID := 2, remote := false }))
            { traceID := 1, spanID := 2, remote := false })
          { spanContext := { traceID := 1, spanID := 2, remote := false } }) = none ∧
    azugoContext.Context
        (GoCtx.withSpan
          (GoCtx.withSpanContext
            (GoCtx.requestSome
              (GoCtx.withSpanContext GoCtx.base
                { traceID := 1, spanID := 2, remote := false }))
            { traceID := 1, spanID := 2, remote := false })
          { spanContext := { traceID := 1, spanID := 2, remote := false } }) = none ∧
    (∀ x, FromContext x = x → azugoContext.ContextMarked x = none) ∧
    (∀ x, hasMarker (FromContext x) = true → azugoContext.ContextMarked x = none) :=
  contextBridge_antiRecursion
    (GoCtx.requestSome
      (GoCtx.withSpanContext GoCtx.base { traceID := 1, spanID := 2, remote := false }))
    (GoCtx.withSpan
      (GoCtx.withSpanContext
        (GoCtx.requestSome
          (GoCtx.withSpanContext GoCtx.base { traceID := 1, spanID := 2, remote := false }))
        { traceID := 1, spanID := 2, remote := false })
      { spanContext := { traceID := 1, spanID := 2, remote := false } })
    (GoCtx.requestSome
      (GoCtx.withSpanContext GoCtx.base { traceID := 1, spanID := 2, remote := false }))
    (GoCtx.withSpan
      (GoCtx.withSpanContext
        (GoCtx.requestSome
          (GoCtx.withSpanContext GoCtx.base { traceID := 1, spanID := 2, remote := false }))
        { traceID := 1, spanID := 2, remote := false })
      { spanContext := { traceID := 1, spanID := 2, remote := false } })
    (by decide) (by decide)

/-! Helper facts for the dispatch core. -/

theorem buildRecorders_cons (r : InstrRecorder) (regs : List InstrRecorder)
    (key : String) :
    buildRecorders (r :: regs) key =
      (((r.ops.filter (fun o => o = key)).map (fun _ => r)) ++
        (if r.ops = [] ∧ key = "" then [r] else [])) ++ buildRecorders regs key := by
  simp [buildRecorders]

theorem firstHandled_replicate_append (k : Nat) (r : InstrRecorder)
    (l : List InstrRecorder) (op : String) (args : List Nat) :
    firstHandled (List.replicate (k + 1) r ++ l) op args =
      firstHandled (r :: l) op args := by
  induction k with
  | zero => rfl
  | succ k ih =>
    have hcons : List.replicate (k + 2) r ++ l = r :: (List.replicate (k + 1) r ++ l) := rfl
    have hL : firstHandled (r :: (List.replicate (k + 1) r ++ l)) op args =
        if (r.recorder op args).2 then some (r.recorder op args).1
        else firstHandled (List.replicate (k + 1) r ++ l) op args := rfl
    have hR : firstHandled (r :: l) op args =
        if (r.recorder op args).2 then some (r.recorder op args).1
        else firstHandled l op args := rfl
    rw [hcons, hL, hR]
    by_cases hc : (r.recorder op args).2 = true
    · rw [if_pos hc, if_pos hc]
    · rw [if_neg hc, if_neg hc, ih, hR, if_neg hc]

theorem map_const_eq_replicate (xs : List String) (r : InstrRecorder) :
    xs.map (fun _ => r) = List.replicate xs.length r := by
  induction xs with
  | nil => rfl
  | cons x xs ih => simp [List.replicate, ih]

theorem firstHandled_buildRecorders_specific (op : String) (hop : op ≠ "")
    (regs : List InstrRecorder) (args : List Nat) :
    firstHandled (buildRecorders regs op) op args =
      firstHandled (claimSpecific regs op) op args := by
  induction regs with
  | nil => rfl
  | cons r rest ih =>
    rw [buildRecorders_cons]
    rw [if_neg (fun hand => hop hand.2), List.append_nil]
    by_cases hmem : op ∈ r.ops
    · have hmemf : op ∈ r.ops.filter (fun o => o = op) :=
        List.mem_filter.2 ⟨hmem, by simp⟩
      obtain ⟨k, hk⟩ : ∃ k, (r.ops.filter (fun o => o = op)).length = k + 1 := by
        cases hlen : (r.ops.filter (fun o => o = op)).length with
        | zero =>
          rw [List.length_eq_zero] at hlen
          rw [hlen] at hmemf
          exact absurd hmemf (List.not_mem_nil op)
        | succ k => exact ⟨k, rfl⟩
      rw [map_const_eq_replicate, hk, firstHandled_replicate_append]
      have hclaim : claimSpecific (r :: rest) op = r :: claimSpecific rest op := by
        simp [claimSpecific, List.filter_cons, hmem]
      rw [hclaim]
      by_cases hc : (r.recorder op args).2 = true <;>
        simp [firstHandled, hc, ih]
    · have hnil : r.ops.filter (fun o => o = op) = [] := by
        rw [List.filter_eq_nil_iff]
        intro o ho
        simp only [decide_eq_true_eq]
        intro he
        exact hmem (he ▸ ho)
      rw [hnil]
      have hclaim : claimSpecific (r :: rest) op = claimSpecific rest op := by
        simp [claimSpecific, List.filter_cons, hmem]
      rw [hclaim]
      simpa using ih

theorem buildRecorders_empty_key (regs : List InstrRecorder)
    (H : ∀ r ∈ regs, "" ∉ r.ops) :
    buildRecorders regs "" = claimCatchAll regs := by
  induction regs with
  | nil => rfl
  | cons r rest ih =>
    have hr : "" ∉ r.ops := H r (List.mem_cons_self r rest)
    have hnil : r.ops.filter (fun o => o = "") = [] := by
      rw [List.filter_eq_nil_iff]
      intro o ho
      simp only [decide_eq_true_eq]
      intro he
      exact hr (he ▸ ho)
    rw [buildRecorders_cons, hnil]
    have hrest := ih (fun x hx => H x (List.mem_cons_of_mem r hx))
    by_cases hempty : r.ops = []
    · simp [hempty, claimCatchAll, List.filter_cons, hrest]
    · simp [hempty, claimCatchAll, List.filter_cons, hrest]

theorem claimSpecific_empty_key (regs : List InstrRecorder)
    (H : ∀ r ∈ regs, "" ∉ r.ops) :
    claimSpecific regs "" = [] := by
  rw [claimSpecific, List.filter_eq_nil_iff]
  intro r hr
  simpa using H r hr

/-- Claim C3 (amended): provided no registration lists the empty
operation identifier explicitly — the empty identifier is the internal
key under which the catch-alls are grouped — dispatch follows exactly
the claimed rule: the operation-specific recorders registered for `op`
in registration order, first `handled = true` wins; only then the
catch-alls (registrations with an empty operation-ID list) under the
same first-match rule; otherwise the non-null no-op callback. -/
theorem instrDispatch_matches_claim (regs : List InstrRecorder) (op : String)
    (args : List Nat) (H : ∀ r ∈ regs, "" ∉ r.ops) :
    instrDispatch regs op args = claimDispatch regs op args := by
  by_cases hop : op = ""
  · subst hop
    rw [instrDispatch, claimDispatch, buildRecorders_empty_key regs H,
      claimSpecific_empty_key regs H]
    cases hfh : firstHandled (claimCatchAll regs) "" args with
    | some f => rfl
    | none => rfl
  · rw [instrDispatch, claimDispatch, firstHandled_buildRecorders_specific op hop,
      buildRecorders_empty_key regs H]

theorem instrDispatch_matches_claim_witness :
    instrDispatch
        [{ name := "a", ops := ["x"], recorder := fun _ _ => (Completion.cb "a" 0, true) }]
        "x" [] =
      claimDispatch
        [{ name := "a", ops := ["x"], recorder := fun _ _ => (Completion.cb "a" 0, true) }]
        "x" [] :=
  instrDispatch_matches_claim
    [{ name := "a", ops := ["x"], recorder := fun _ _ => (Completion.cb "a" 0, true) }]
    "x" []
    (by
      intro r hr
      rw [List.mem_singleton] at hr
      subst hr
      decide)

/-- Claim C3 fails as universally stated: a registration whose
operation-ID list is the non-empty list containing just the empty
identifier lands in the same internal bucket as the catch-alls, so the
code lets it handle every operation, while the claimed rule — under
which it is neither registered for `"x"` nor a catch-all — returns the
no-op callback. -/
theorem instrDispatch_claim_counterexample :
    instrDispatch
        [{ name := "b", ops := [""], recorder := fun _ _ => (Completion.cb "b" 0, true) }]
        "x" [] = Completion.cb "b" 0 ∧
    claimDispatch
        [{ name := "b", ops := [""], recorder := fun _ _ => (Completion.cb "b" 0, true) }]
        "x" [] = Completion.noop ∧
    instrDispatch
        [{ name := "b", ops := [""], recorder := fun _ _ => (Completion.cb "b" 0, true) }]
        "x" [] ≠
      claimDispatch
        [{ name := "b", ops := [""], recorder := fun _ _ => (Completion.cb "b" 0, true) }]
        "x" [] := by
  refine ⟨rfl, rfl, ?_⟩
  decide

/-- Claim C4 (amended): the dispatch closure of the shipped variant
with panic handling applies the generic first-match recorder rule to
every operation identifier other than the reserved panic identifier;
for the panic identifier itself it short-circuits to a built-in
panic-handling completion callback through a special-case branch,
without consulting the registered recorders. -/
theorem instrDispatchPanicVariant_spec (regs : List InstrRecorder) (op : String)
    (args : List Nat) (h : op ≠ instrumentationPanic) :
    instrDispatchPanicVariant regs op args = instrDispatch regs op args ∧
    instrDispatchPanicVariant regs instrumentationPanic args = Completion.panicBuiltin := by
  constructor
  · rw [instrDispatchPanicVariant, if_neg h, instrDispatch]
  · rw [instrDispatchPanicVariant, if_pos rfl]

theorem instrDispatchPanicVariant_spec_witness :
    instrDispatchPanicVariant [] "x" [] = instrDispatch [] "x" [] ∧
    instrDispatchPanicVariant [] instrumentationPanic [] = Completion.panicBuiltin :=
  instrDispatchPanicVariant_spec [] "x" [] (by decide)

/-- Claim C4 fails as stated on the variant it cites: a recorder
registered precisely for the reserved panic identifier is never
consulted — the special-case branch answers with the built-in callback
— whereas the generic rule would hand back that recorder's callback. -/
theorem instrDispatchPanicVariant_counterexample :
    instrDispatchPanicVariant
        [{ name := "r", ops := [instrumentationPanic],
           recorder := fun _ _ => (Completion.cb "r" 1, true) }]
        instrumentationPanic [] = Completion.panicBuiltin ∧
    instrDispatch
        [{ name := "r", ops := [instrumentationPanic],
           recorder := fun _ _ => (Completion.cb "r" 1, true) }]
        instrumentationPanic [] = Completion.cb "r" 1 ∧
    instrDispatchPanicVariant
        [{ name := "r", ops := [instrumentationPanic],
           recorder := fun _ _ => (Completion.cb "r" 1, true) }]
        instrumentationPanic [] ≠
      instrDispatch
        [{ name := "r", ops := [instrumentationPanic],
           recorder := fun _ _ => (Completion.cb "r" 1, true) }]
        instrumentationPanic [] := by
  refine ⟨rfl, rfl, ?_⟩
  decide
